import Mathlib

/-!
Shallow embedding of `src/rmdup.py` (duplicate-detecting removal tool).

The filesystem is modelled as a finite tree of nodes.  A node is either a
regular file (with a stat identity, a readability flag and a byte content)
or a directory (with a stat identity and a list of named child nodes).
Paths are strings split on the separator character, as in the source.
Python exceptions other than the domain-level NotDuplicate are modelled by
`Except Unit`; the NotDuplicate exception raised by `process_duplicate` is
modelled as an `Option String` carrying the reason.
-/

namespace Rmdup

inductive Node where
  | file (stat : Nat) (readable : Bool) (content : List Nat)
  | dir (stat : Nat) (entries : List (String × Node))
deriving Repr

/-- Children of a Python dict node: first binding for a name wins (dict keys
are unique in the source; the model keeps list order as dict order). -/
def lookupEntry (es : List (String × Node)) (s : String) : Option Node :=
  (es.find? (fun e => e.1 = s)).map (fun e => e.2)

/-- Splitting a path string on the OS separator, as `skip_path.split(os.path.sep)`
and path resolution do.  Implemented character by character so that it is
structurally recursive. -/
def splitSegsAux : List Char → List Char → List String
  | [], acc => [String.mk acc.reverse]
  | c :: cs, acc =>
    if c = '/' then String.mk acc.reverse :: splitSegsAux cs []
    else splitSegsAux cs (c :: acc)

def splitPath (s : String) : List String :=
  splitSegsAux s.toList []

/-- `os.path.join(d, f)` for the relative names produced by the tree walk. -/
def pjoin (d f : String) : String := d ++ "/" ++ f

/-- Resolve a segment list inside a node (one lookup per path segment). -/
def resolveIn (n : Node) : List String → Option Node
  | [] => some n
  | s :: rest =>
    match n with
    | .dir _ es =>
      match lookupEntry es s with
      | some m => resolveIn m rest
      | none => none
    | _ => none

def resolvePath (root : Node) (p : String) : Option Node :=
  resolveIn root (splitPath p)

-- sanity checks (evaluation by kernel)
example : splitPath "a/b" = ["a", "b"] := rfl
example : splitPath "f" = ["f"] := rfl
example :
    resolvePath (Node.dir 0 [("a", Node.file 1 true [7])]) "a"
      = some (Node.file 1 true [7]) := rfl
example :
    resolvePath (Node.dir 0 [("a", Node.dir 1 [("b", Node.file 2 true [])])]) "a/b"
      = some (Node.file 2 true []) := rfl
example : resolvePath (Node.dir 0 []) "x" = none := rfl

/-! ### Basic filesystem predicates (`file_exists`, `same_file_or_dir`) -/

/-- `os.path.exists(fname)`. -/
def file_exists (root : Node) (p : String) : Bool :=
  (resolvePath root p).isSome

/-- Stat identity of a node, standing for the full `os.stat` result
(device, inode, metadata).  Distinct filesystem objects carry distinct
values; the same object reached twice yields the same value. -/
def statOf : Node → Nat
  | .file st _ _ => st
  | .dir st _ => st

/-- `os.stat(p)`, `None` standing for a raised `OSError`. -/
def os_stat (root : Node) (p : String) : Option Nat :=
  (resolvePath root p).map statOf

/-- `same_file_or_dir(path1, path2)`: compare the two stat results,
returning `False` when either stat raises `OSError`. -/
def same_file_or_dir (root : Node) (p1 p2 : String) : Bool :=
  match os_stat root p1, os_stat root p2 with
  | some s1, some s2 => s1 == s2
  | _, _ => false

/-- `os.path.isdir(p)` (false for a missing path). -/
def is_dir (root : Node) (p : String) : Bool :=
  match resolvePath root p with
  | some (.dir _ _) => true
  | _ => false

/-! ### Content comparison (`same_size`, `same_content`) -/

def READ_BUFFER_SIZE : Nat := 100 * 1024 ^ 2

/-- `os.path.getsize(p)`, `None` standing for a raised `OSError`.
Directory sizes are reported as a block size; only file sizes matter here. -/
def getsize (root : Node) (p : String) : Option Nat :=
  match resolvePath root p with
  | some (.file _ _ content) => some content.length
  | some (.dir _ _) => some 4096
  | none => none

/-- `same_size(fname1, fname2)`: `False` on a size mismatch or on an
`OSError` from either `getsize` call. -/
def same_size (root : Node) (fname1 fname2 : String) : Bool :=
  match getsize root fname1, getsize root fname2 with
  | some s1, some s2 => s1 == s2
  | _, _ => false

/-- `open(fname, 'rb')` followed by reading: yields the byte content, or
`none` for a raised `IOError` (missing or unreadable file).  The source
wraps no try/except around this, so a `none` here propagates. -/
def openRead (root : Node) (p : String) : Option (List Nat) :=
  match resolvePath root p with
  | some (.file _ true content) => some content
  | _ => none

/-- The `while buff1:` loop of `same_content`, reading blocks of `bs` bytes
from both streams in lockstep (`_read_block` reads `READ_BUFFER_SIZE` at a
time; the `read_block` parameter makes the granularity configurable).
`fuel` bounds the number of iterations; `content.length + 1` iterations
always suffice, so the fuel-exhausted branch is never reached from
`same_content`. -/
def cmp_blocks (bs : Nat) : Nat → List Nat → List Nat → Bool
  | 0, _, _ => true
  | fuel + 1, c1, c2 =>
    let b1 := c1.take bs
    let b2 := c2.take bs
    if b1 = b2 then
      if b1.isEmpty then true
      else cmp_blocks bs fuel (c1.drop bs) (c2.drop bs)
    else false

/-- `same_content(fname1, fname2, read_block)`: sizes must match (stat
failures there yield `False`); then both files are opened and compared
block by block.  An exception at open/read time is not caught and is
modelled by `Except.error ()`. -/
def same_content (root : Node) (fname1 fname2 : String) (bs : Nat) :
    Except Unit Bool :=
  if same_size root fname1 fname2 then
    match openRead root fname1, openRead root fname2 with
    | some c1, some c2 => .ok (cmp_blocks bs (c1.length + 1) c1 c2)
    | _, _ => .error ()
  else
    .ok false

example :
    same_content (Node.dir 0 [("f", Node.file 1 true [3, 4])]) "f" "f" 5
      = .ok true := rfl
example :
    same_content (Node.dir 0 [("f", Node.file 1 true [3, 4])]) "f" "g" 5
      = .ok false := rfl
example :
    same_content
      (Node.dir 0 [("f", Node.file 1 true [3]), ("g", Node.file 2 false [4])])
      "f" "g" 5 = .error () := rfl

/-! ### Skip path tree (`_make_skip_path_tree`) and enumeration (`_files_in`) -/

/-- The nested-dict skip tree: a mapping from path segment to subtree.
A node with no children is a leaf, meaning everything under the
accumulated path is skipped. -/
inductive SkipTree where
  | node (children : List (String × SkipTree))
deriving Repr

def SkipTree.children : SkipTree → List (String × SkipTree)
  | .node cs => cs

/-- Dict lookup `tree[path]` / `path in tree`. -/
def lookupChild (t : SkipTree) (s : String) : Option SkipTree :=
  (t.children.find? (fun e => e.1 = s)).map (fun e => e.2)

/-- Dict update `tree[path] = v`: replace the existing binding in place, or
append a new one (dict insertion order). -/
def updateChild : List (String × SkipTree) → String → SkipTree →
    List (String × SkipTree)
  | [], s, v => [(s, v)]
  | (k, w) :: rest, s, v =>
    if k = s then (s, v) :: rest else (k, w) :: updateChild rest s v

/-- One iteration of the outer loop of `_make_skip_path_tree`: walk the
segment chain with `tree[path] = tree.get(path, {})`, then `tree.clear()`
on the final node. -/
def insertSegs (t : SkipTree) : List String → SkipTree
  | [] => .node []
  | s :: rest =>
    let child := (lookupChild t s).getD (.node [])
    .node (updateChild t.children s (insertSegs child rest))

/-- `_make_skip_path_tree(path_list)` (a `None` argument is the empty
list). -/
def _make_skip_path_tree (path_list : List String) : SkipTree :=
  path_list.foldl (fun t p => insertSegs t (splitPath p)) (.node [])

/-- `path in skip_path_tree and 0 == len(skip_path_tree[path])`. -/
def isSkipLeaf (t : SkipTree) (s : String) : Bool :=
  match lookupChild t s with
  | some (.node []) => true
  | _ => false

/-- `skip_path_tree.get(path, {})`. -/
def skipChild (t : SkipTree) (s : String) : SkipTree :=
  (lookupChild t s).getD (.node [])

/-- `_files_in(directory, skip_path_tree)` fused with the `os.path.relpath`
of `files_in`: walks the entries of a directory, omitting skip-tree leaves,
recursing into subdirectories with the child subtree, and yielding each
regular file as a path relative to the walk root. -/
def _files_in : List (String × Node) → SkipTree → List String
  | [], _ => []
  | (name, n) :: rest, sk =>
    (if isSkipLeaf sk name then []
     else
       match n with
       | .file _ _ _ => [name]
       | .dir _ sub => (_files_in sub (skipChild sk name)).map (pjoin name))
      ++ _files_in rest sk

/-- `files_in(directory, skip_paths)`: `os.listdir` raises on a missing
path or a non-directory, which the callers do not catch. -/
def files_in (root : Node) (directory : String) (skip_paths : List String) :
    Except Unit (List String) :=
  match resolvePath root directory with
  | some (.dir _ es) => .ok (_files_in es (_make_skip_path_tree skip_paths))
  | _ => .error ()

example :
    _make_skip_path_tree ["a", "a/b"]
      = .node [("a", .node [("b", .node [])])] := rfl
example :
    _make_skip_path_tree ["a/b", "a"] = .node [("a", .node [])] := rfl
example :
    files_in
      (Node.dir 0 [("d", Node.dir 1
        [("f", Node.file 2 true []),
         ("sub", Node.dir 3 [("g", Node.file 4 true [1])])])])
      "d" []
      = .ok ["f", "sub/g"] := by
  simp [files_in, _files_in, _make_skip_path_tree, resolvePath, splitPath,
    splitSegsAux, resolveIn, lookupEntry, isSkipLeaf, lookupChild,
    skipChild, SkipTree.children, pjoin]
example :
    files_in
      (Node.dir 0 [("d", Node.dir 1
        [("f", Node.file 2 true []),
         ("sub", Node.dir 3 [("g", Node.file 4 true [1])])])])
      "d" ["sub"]
      = .ok ["f"] := by
  simp [files_in, _files_in, _make_skip_path_tree, insertSegs, updateChild,
    resolvePath, splitPath, splitSegsAux, resolveIn, lookupEntry, isSkipLeaf,
    lookupChild, skipChild, SkipTree.children, pjoin]

/-! ### Reason message strings -/

def quoted (s : String) : String := "\"" ++ s ++ "\""

/-- Python `repr` of a string, as it appears inside a formatted list. -/
def pyquoted (s : String) : String := "\x27" ++ s ++ "\x27"

/-- Python `str` of a list of strings, as produced by `'{0}'.format(sorted(...))`. -/
def pyListStr (l : List String) : String :=
  "[" ++ String.intercalate ", " (l.map pyquoted) ++ "]"

def same_file_msg (f1 f2 : String) : String :=
  quoted f1 ++ " and " ++ quoted f2 ++ " are referencing the same file"

def files_differ_msg (f1 f2 : String) : String :=
  "files " ++ quoted f1 ++ " and " ++ quoted f2 ++ " differ"

def same_directory_msg (d1 d2 : String) : String :=
  quoted d1 ++ " and " ++ quoted d2 ++ " are referencing the same directory"

def extra_files_msg (l : List String) : String :=
  "duplicate candidate contains extra non-duplicate file[s]: " ++ pyListStr l

def sizes_differ_msg (f1 f2 : String) : String :=
  "sizes of files " ++ quoted f1 ++ " and " ++ quoted f2 ++ " differ"

def does_not_exist_msg (d : String) : String :=
  quoted d ++ " does not exist"

/-! ### File judgment (`not_duplicate_file_reason`) -/

/-- `not_duplicate_file_reason(fname1, fname2)`: `some reason` when the
pair must not be treated as duplicates, `none` when the candidate is safe
to remove.  An uncaught exception from `same_content` propagates. -/
def not_duplicate_file_reason (root : Node) (fname1 fname2 : String) :
    Except Unit (Option String) :=
  if same_file_or_dir root fname1 fname2 then
    .ok (some (same_file_msg fname1 fname2))
  else
    match same_content root fname1 fname2 READ_BUFFER_SIZE with
    | .error e => .error e
    | .ok true => .ok none
    | .ok false => .ok (some (files_differ_msg fname1 fname2))

/-! ### Directory judgment (`not_duplicate_dir_reason`) -/

/-- Python `set(...)` of a listing: duplicates removed.  Set iteration
order is unspecified in Python; the model fixes it to first-occurrence
order.  Listings of well-formed trees have no duplicates, so this is the
identity there. -/
def pySet : List String → List String :=
  go []
where
  go (seen : List String) : List String → List String
    | [] => []
    | x :: xs => if seen.contains x then go seen xs else x :: go (x :: seen) xs

/-- Ascending insertion into a sorted list (lexicographic string order). -/
def insertSorted (x : String) : List String → List String
  | [] => [x]
  | y :: ys => if x ≤ y then x :: y :: ys else y :: insertSorted x ys

/-- Python `sorted(...)` on strings. -/
def sortStr (l : List String) : List String :=
  l.foldr insertSorted []

/-- The second `for` loop of `not_duplicate_dir_reason`: compare contents
of each common relative path, returning the first differing pair, and
propagating any exception raised by `same_content`. -/
def contentLoop (root : Node) (directory duplicate_candidate : String) :
    List String → Except Unit (Option String)
  | [] => .ok none
  | f :: rest =>
    match same_content root (pjoin directory f) (pjoin duplicate_candidate f)
        READ_BUFFER_SIZE with
    | .error e => .error e
    | .ok false =>
      .ok (some (files_differ_msg (pjoin directory f)
        (pjoin duplicate_candidate f)))
    | .ok true => contentLoop root directory duplicate_candidate rest

/-- `not_duplicate_dir_reason(directory, duplicate_candidate,
ignored_differences)`: same-directory check, then extra-file check, then
the size sweep, then the content sweep. -/
def not_duplicate_dir_reason (root : Node)
    (directory duplicate_candidate : String)
    (ignored_differences : List String) : Except Unit (Option String) :=
  if same_file_or_dir root directory duplicate_candidate then
    .ok (some (same_directory_msg directory duplicate_candidate))
  else
    match files_in root duplicate_candidate ignored_differences with
    | .error e => .error e
    | .ok candList =>
      match files_in root directory [] with
      | .error e => .error e
      | .ok origList =>
        let possible_duplicate_files := pySet candList
        let extra_files :=
          possible_duplicate_files.filter (fun f => !(origList.contains f))
        if extra_files.isEmpty then
          match possible_duplicate_files.find? (fun f =>
              !(same_size root (pjoin directory f)
                (pjoin duplicate_candidate f))) with
          | some f =>
            .ok (some (sizes_differ_msg (pjoin directory f)
              (pjoin duplicate_candidate f)))
          | none =>
            contentLoop root directory duplicate_candidate
              possible_duplicate_files
        else
          .ok (some (extra_files_msg (sortStr extra_files)))

/-! ### Removal (`remove_file_or_dir`, `process_duplicate`) -/

/-- Delete the object at a path: removing a file (`os.remove`) or a whole
directory (`shutil.rmtree`) both drop the entry from the parent directory.
Structurally recursive on the segment list. -/
def deleteIn (n : Node) : List String → Node
  | [] => n
  | [s] =>
    match n with
    | .dir st es => .dir st (es.filter (fun e => !(e.1 = s)))
    | f => f
  | s :: s2 :: tail =>
    match n with
    | .dir st es =>
      .dir st (es.map (fun e =>
        if e.1 = s then (e.1, deleteIn e.2 (s2 :: tail)) else e))
    | f => f

/-- `remove_file_or_dir(path)`: the `isdir` dispatch selects `rmtree` or
`remove`, both modelled as dropping the entry at the path.  Only called
after the existence check in `process_duplicate`. -/
def remove_file_or_dir (path : String) (root : Node) : Node :=
  deleteIn root (splitPath path)

/-- `process_duplicate(orig, duplicate, ignored_differences, process)`.
The result pairs the raised `NotDuplicate` reason (`some reason`, state
unchanged) or success (`none`) with the filesystem after the call;
`Except.error` models any other uncaught exception. -/
def process_duplicate (root : Node) (orig duplicate : String)
    (ignored_differences : List String) (process : String → Node → Node) :
    Except Unit (Option String × Node) :=
  if file_exists root duplicate then
    match (if is_dir root duplicate then
        not_duplicate_dir_reason root orig duplicate ignored_differences
      else
        not_duplicate_file_reason root orig duplicate) with
    | .error e => .error e
    | .ok none => .ok (none, process duplicate root)
    | .ok (some reason) => .ok (some reason, root)
  else
    .ok (some (does_not_exist_msg duplicate), root)

-- sanity checks mirroring the unit tests of the source
example :
    process_duplicate
      (Node.dir 0 [("1", Node.file 1 true [97]), ("2", Node.file 2 true [97])])
      "1" "2" [] remove_file_or_dir
      = .ok (none, Node.dir 0 [("1", Node.file 1 true [97])]) := rfl
example :
    process_duplicate
      (Node.dir 0 [("1", Node.file 1 true [97]), ("2", Node.file 2 true [98])])
      "1" "2" [] remove_file_or_dir
      = .ok (some (files_differ_msg "1" "2"),
          Node.dir 0 [("1", Node.file 1 true [97]), ("2", Node.file 2 true [98])])
      := rfl
example :
    not_duplicate_dir_reason
      (Node.dir 0 [("d1", Node.dir 1 []), ("d2", Node.dir 2 [])])
      "d1" "d2" [] = .ok none := by
  simp [not_duplicate_dir_reason, same_file_or_dir, os_stat, resolvePath,
    splitPath, splitSegsAux, resolveIn, lookupEntry, statOf, files_in,
    _files_in, _make_skip_path_tree, pySet, pySet.go, contentLoop]
example :
    not_duplicate_dir_reason (Node.dir 0 [("d", Node.dir 1 [])]) "d" "d" []
      = .ok (some (same_directory_msg "d" "d")) := rfl
example :
    not_duplicate_dir_reason
      (Node.dir 0
        [("d1", Node.dir 1 []),
         ("d2", Node.dir 2 [("extra_file", Node.file 3 true [])])])
      "d1" "d2" []
      = .ok (some (extra_files_msg ["extra_file"])) := by
  simp [not_duplicate_dir_reason, same_file_or_dir, os_stat, resolvePath,
    splitPath, splitSegsAux, resolveIn, lookupEntry, statOf, files_in,
    _files_in, _make_skip_path_tree, pySet, pySet.go, isSkipLeaf,
    lookupChild, SkipTree.children, sortStr, insertSorted, extra_files_msg,
    pyListStr, pyquoted]
example :
    not_duplicate_dir_reason
      (Node.dir 0
        [("d1", Node.dir 1 [("d", Node.dir 2 [("file", Node.file 3 true [])])]),
         ("d2", Node.dir 4 [("d", Node.dir 5 [("file", Node.file 6 true [120])])])])
      "d1" "d2" []
      = .ok (some (sizes_differ_msg "d1/d/file" "d2/d/file")) := by
  simp [not_duplicate_dir_reason, same_file_or_dir, os_stat, resolvePath,
    splitPath, splitSegsAux, resolveIn, lookupEntry, statOf, files_in,
    _files_in, _make_skip_path_tree, pySet, pySet.go, isSkipLeaf,
    lookupChild, SkipTree.children, skipChild, pjoin, same_size, getsize]
example :
    not_duplicate_dir_reason
      (Node.dir 0
        [("d1", Node.dir 1 [("d", Node.dir 2 [("file", Node.file 3 true [])])]),
         ("d2", Node.dir 4 [("d", Node.dir 5 [("file", Node.file 6 true [120])])])])
      "d1" "d2" ["d"] = .ok none := by
  simp [not_duplicate_dir_reason, same_file_or_dir, os_stat, resolvePath,
    splitPath, splitSegsAux, resolveIn, lookupEntry, statOf, files_in,
    _files_in, _make_skip_path_tree, insertSegs, updateChild, pySet,
    pySet.go, isSkipLeaf, lookupChild, SkipTree.children, skipChild, pjoin,
    contentLoop]

/-! ### Helper lemmas -/

/-- With enough fuel and a positive block size, the lockstep block
comparison loop accepts exactly the pairs of equal byte streams. -/
theorem cmp_blocks_true_iff :
    ∀ (fuel : Nat) (bs : Nat) (c1 c2 : List Nat), c1.length < fuel → 0 < bs →
      (cmp_blocks bs fuel c1 c2 = true ↔ c1 = c2) := by
  intro fuel
  induction fuel with
  | zero => intro bs c1 c2 h; omega
  | succ fuel ih =>
    intro bs c1 c2 hlen hbs
    simp only [cmp_blocks]
    by_cases ht : c1.take bs = c2.take bs
    · by_cases he : (c1.take bs).isEmpty
      · have h1 : c1 = [] := by
          rcases List.take_eq_nil_iff.mp (List.isEmpty_iff.mp he) with h | h
          · omega
          · exact h
        have h2 : c2 = [] := by
          rw [h1] at ht
          have ht2 : c2.take bs = [] := by simpa using ht.symm
          rcases List.take_eq_nil_iff.mp ht2 with h | h
          · omega
          · exact h
        subst h1
        subst h2
        simp
      · have hne : c1 ≠ [] := by
          intro hc
          exact he (by simp [hc])
        have hlt : (c1.drop bs).length < fuel := by
          have : 0 < c1.length := List.length_pos.mpr hne
          simp only [List.length_drop]
          omega
        have hiff := ih bs (c1.drop bs) (c2.drop bs) hlt hbs
        rw [if_pos ht, if_neg he, hiff]
        constructor
        · intro hd
          calc c1 = c1.take bs ++ c1.drop bs := (List.take_append_drop bs c1).symm
            _ = c2.take bs ++ c2.drop bs := by rw [ht, hd]
            _ = c2 := List.take_append_drop bs c2
        · intro hc
          rw [hc]
    · have : ¬ c1 = c2 := by
        intro hc
        exact ht (by rw [hc])
      simp [ht, this]

theorem splitSegsAux_ne_nil : ∀ (cs acc : List Char), splitSegsAux cs acc ≠ [] := by
  intro cs
  induction cs with
  | nil => intro acc; simp [splitSegsAux]
  | cons c cs ih =>
    intro acc
    by_cases h : c = '/'
    · simp [splitSegsAux, h]
    · simp only [splitSegsAux, h, if_false]
      exact ih (c :: acc)

theorem splitPath_ne_nil (s : String) : splitPath s ≠ [] :=
  splitSegsAux_ne_nil s.toList []

theorem lookupEntry_filter_ne (es : List (String × Node)) (s : String) :
    lookupEntry (es.filter (fun e => !(e.1 = s))) s = none := by
  induction es with
  | nil => rfl
  | cons e rest ih =>
    by_cases h : e.1 = s
    · simpa [List.filter, h] using ih
    · simp [lookupEntry, List.filter, List.find?, h, ih]

theorem lookupEntry_map_update (es : List (String × Node)) (s : String)
    (g : Node → Node) :
    lookupEntry (es.map (fun e => if e.1 = s then (e.1, g e.2) else e)) s
      = (lookupEntry es s).map g := by
  induction es with
  | nil => rfl
  | cons e rest ih =>
    by_cases h : e.1 = s
    · simp [lookupEntry, List.find?, h]
    · simpa [lookupEntry, List.find?, h] using ih

/-- After deleting the object at a non-empty path, resolving that path
fails. -/
theorem resolveIn_deleteIn :
    ∀ (segs : List String) (n : Node), segs ≠ [] →
      resolveIn (deleteIn n segs) segs = none := by
  intro segs
  induction segs with
  | nil => intro n h; exact absurd rfl h
  | cons s rest ih =>
    intro n _
    cases rest with
    | nil =>
      cases n with
      | file st r c => rfl
      | dir st es =>
        simp [deleteIn, resolveIn, lookupEntry_filter_ne]
    | cons s2 tail =>
      cases n with
      | file st r c => rfl
      | dir st es =>
        simp only [deleteIn, resolveIn,
          lookupEntry_map_update es s (fun m => deleteIn m (s2 :: tail))]
        cases h : lookupEntry es s with
        | none => simp
        | some m => exact ih m (by simp)

/-! ## Claims -/

/-! ### C4: reflexivity of `same_file_or_dir` -/

/-- Claim C4, counterexample: the claim asserts `same_entity(p, p)` is true
for every path with no existence precondition, but for a path that cannot
be stat-ed the source returns `False`: on an empty filesystem,
`same_file_or_dir("x", "x")` is false. -/
theorem claim_C4_counterexample :
    same_file_or_dir (Node.dir 0 []) "x" "x" = false := rfl

/-- Claim C4, amended: for every path `p` that resolves (can be stat-ed),
`same_file_or_dir(p, p)` returns true; for a path that cannot be stat-ed
it returns false rather than raising. -/
theorem claim_C4 (root : Node) (p : String) (n : Node)
    (h : resolvePath root p = some n) :
    same_file_or_dir root p p = true := by
  simp [same_file_or_dir, os_stat, h]

theorem claim_C4_witness :
    same_file_or_dir (Node.dir 0 [("f", Node.file 1 true [])]) "f" "f" = true :=
  claim_C4 (Node.dir 0 [("f", Node.file 1 true [])]) "f" (Node.file 1 true []) rfl

/-! ### C2: I/O failures during content comparison -/

/-- A filesystem in which `f1` and `f2` exist with equal sizes, but `f2`
is unreadable (for instance mode 000), so that `open` raises. -/
def C2root : Node :=
  Node.dir 0 [("f1", Node.file 1 true [7]), ("f2", Node.file 2 false [8])]

/-- Claim C2, counterexample: the claim asserts that any I/O failure while
reading the contents (a vanished file or a permission error on open or
read) makes `same_content` return false and that it never raises.  In the
source only `same_size` guards its stat calls with `except OSError`; the
`open` calls are unguarded, so an `IOError` on opening an existing
unreadable file whose size matched propagates out of `same_content`
instead of yielding false. -/
theorem claim_C2_counterexample :
    same_content C2root "f1" "f2" READ_BUFFER_SIZE = .error ()
      ∧ same_content C2root "f1" "f2" READ_BUFFER_SIZE ≠ .ok false :=
  ⟨rfl, by simp [C2root, same_content, same_size, getsize, resolvePath,
    splitPath, splitSegsAux, resolveIn, lookupEntry, openRead]⟩

/-- Claim C2, amended: I/O failures detected by the size check (a stat
failure on either file, such as a missing file) make `same_content` return
false; but an I/O failure at open/read time after a successful size
comparison (such as a permission error, or a file that vanished in
between) is not absorbed: `same_content` propagates the exception instead
of returning false. -/
theorem claim_C2 :
    (∀ (root : Node) (f1 f2 : String) (bs : Nat),
      getsize root f1 = none ∨ getsize root f2 = none →
        same_content root f1 f2 bs = .ok false)
    ∧ (∀ (root : Node) (f1 f2 : String) (bs : Nat),
      same_size root f1 f2 = true →
      openRead root f1 = none ∨ openRead root f2 = none →
        same_content root f1 f2 bs = .error ()) := by
  constructor
  · intro root f1 f2 bs h
    have hs : same_size root f1 f2 = false := by
      rcases h with h | h
      · simp [same_size, h]
      · cases hg : getsize root f1 <;> simp [same_size, h, hg]
    simp [same_content, hs]
  · intro root f1 f2 bs hs h
    rcases h with h | h
    · simp [same_content, hs, h]
    · cases h1 : openRead root f1 <;> simp [same_content, hs, h, h1]

theorem claim_C2_witness :
    same_content (Node.dir 0 []) "a" "b" 1 = .ok false
      ∧ same_content C2root "f1" "f2" READ_BUFFER_SIZE = .error () :=
  ⟨claim_C2.1 (Node.dir 0 []) "a" "b" 1 (Or.inl rfl),
   claim_C2.2 C2root "f1" "f2" READ_BUFFER_SIZE rfl (Or.inr rfl)⟩

/-! ### C10: reflexivity of `same_content` -/

/-- Claim C10: for every existing readable regular file `f`,
`same_content(f, f)` returns true (sizes trivially agree and the lockstep
block comparison of a stream with itself succeeds). -/
theorem claim_C10 (root : Node) (p : String) (st : Nat) (c : List Nat)
    (h : resolvePath root p = some (.file st true c)) :
    same_content root p p READ_BUFFER_SIZE = .ok true := by
  have hsz : same_size root p p = true := by simp [same_size, getsize, h]
  have hrd : openRead root p = some c := by simp [openRead, h]
  have hcmp : cmp_blocks READ_BUFFER_SIZE (c.length + 1) c c = true :=
    (cmp_blocks_true_iff (c.length + 1) READ_BUFFER_SIZE c c
      (by omega) (by norm_num [READ_BUFFER_SIZE])).mpr rfl
  simp [same_content, hsz, hrd, hcmp]

theorem claim_C10_witness :
    same_content (Node.dir 0 [("f", Node.file 1 true [7, 8])]) "f" "f"
      READ_BUFFER_SIZE = .ok true :=
  claim_C10 (Node.dir 0 [("f", Node.file 1 true [7, 8])]) "f" 1 [7, 8] rfl

/-! ### C8: block size and lockstep reading -/

/-- Claim C8, counterexample: the claim says the default block size is on
the order of 1 MiB, but the source sets `READ_BUFFER_SIZE` to
`100 * 1024 ** 2` bytes, which is 100 MiB — two orders of magnitude more
(larger even than ten times 1 MiB). -/
theorem claim_C8_counterexample :
    READ_BUFFER_SIZE = 104857600 ∧ 10 * 1024 ^ 2 < READ_BUFFER_SIZE := by
  constructor <;> norm_num [READ_BUFFER_SIZE]

/-- Claim C8, amended: `same_content` reads both files in fixed-size
blocks in lockstep — for every positive configured block size the
blockwise comparison agrees exactly with byte-for-byte equality of the
contents — and the default block size `READ_BUFFER_SIZE` is
`100 * 1024 ^ 2` bytes (100 MiB), not on the order of 1 MiB. -/
theorem claim_C8 :
    READ_BUFFER_SIZE = 100 * 1024 ^ 2
    ∧ (∀ (root : Node) (f1 f2 : String) (st1 st2 : Nat) (c1 c2 : List Nat)
        (bs : Nat), 0 < bs →
        resolvePath root f1 = some (.file st1 true c1) →
        resolvePath root f2 = some (.file st2 true c2) →
        (same_content root f1 f2 bs = .ok true ↔ c1 = c2)) := by
  constructor
  · rfl
  · intro root f1 f2 st1 st2 c1 c2 bs hbs h1 h2
    by_cases hlen : c1.length = c2.length
    · have hsz : same_size root f1 f2 = true := by
        simp [same_size, getsize, h1, h2, hlen]
      have hcmp := cmp_blocks_true_iff (c1.length + 1) bs c1 c2 (by omega) hbs
      simp [same_content, hsz, openRead, h1, h2, hcmp]
    · have hsz : same_size root f1 f2 = false := by
        simp [same_size, getsize, h1, h2]
        omega
      have hne : ¬ c1 = c2 := fun hc => hlen (by rw [hc])
      simp [same_content, hsz, hne]

theorem claim_C8_witness :
    0 < 1
      ∧ same_content (Node.dir 0 [("f1", Node.file 1 true [5]),
          ("f2", Node.file 2 true [5])]) "f1" "f2" 1 = .ok true :=
  ⟨by decide,
   (claim_C8.2 (Node.dir 0 [("f1", Node.file 1 true [5]),
      ("f2", Node.file 2 true [5])]) "f1" "f2" 1 2 [5] [5] 1
      (by decide) rfl rfl).mpr rfl⟩

/-! ### C7: decision order of `not_duplicate_file_reason` -/

/-- A filesystem with two distinct existing files of equal size, the
second unreadable. -/
def C7root : Node :=
  Node.dir 0 [("f1", Node.file 1 true [1]), ("f2", Node.file 2 false [2])]

/-- Claim C7, counterexample: the claim asserts that for every pair of
existing files exactly one verdict is produced, but when the two files
exist with equal sizes and one of them cannot be opened,
`not_duplicate_file_reason` propagates the `IOError` raised inside
`same_content` and produces no verdict at all. -/
theorem claim_C7_counterexample :
    not_duplicate_file_reason C7root "f1" "f2" = .error () := rfl

/-- Claim C7, amended: for every pair of existing readable regular files
(orig, candidate), `not_duplicate_file_reason` produces exactly one
verdict, in exactly this decision order: the same-file reason when the two
paths are the same entity; otherwise the contents-differ reason when
`same_content` is false; otherwise safe-to-remove (`none`).  (If the pair
has equal sizes but a member that cannot be opened, the comparison instead
raises, which is why readability is required.) -/
theorem claim_C7 (root : Node) (f1 f2 : String) (st1 st2 : Nat)
    (c1 c2 : List Nat)
    (h1 : resolvePath root f1 = some (.file st1 true c1))
    (h2 : resolvePath root f2 = some (.file st2 true c2)) :
    (∃ v, not_duplicate_file_reason root f1 f2 = .ok v)
    ∧ (same_file_or_dir root f1 f2 = true →
        not_duplicate_file_reason root f1 f2 = .ok (some (same_file_msg f1 f2)))
    ∧ (same_file_or_dir root f1 f2 = false →
        same_content root f1 f2 READ_BUFFER_SIZE = .ok false →
        not_duplicate_file_reason root f1 f2
          = .ok (some (files_differ_msg f1 f2)))
    ∧ (same_file_or_dir root f1 f2 = false →
        same_content root f1 f2 READ_BUFFER_SIZE = .ok true →
        not_duplicate_file_reason root f1 f2 = .ok none) := by
  have hcontent : ∀ b, same_content root f1 f2 READ_BUFFER_SIZE ≠ .error b := by
    intro b
    by_cases hsz : same_size root f1 f2
    · simp [same_content, hsz, openRead, h1, h2]
    · simp [same_content, hsz]
  refine ⟨?_, ?_, ?_, ?_⟩
  · by_cases hid : same_file_or_dir root f1 f2
    · exact ⟨some (same_file_msg f1 f2), by simp [not_duplicate_file_reason, hid]⟩
    · cases hc : same_content root f1 f2 READ_BUFFER_SIZE with
      | error e => exact absurd hc (hcontent e)
      | ok b =>
        cases b with
        | true => exact ⟨none, by simp [not_duplicate_file_reason, hid, hc]⟩
        | false =>
          exact ⟨some (files_differ_msg f1 f2),
            by simp [not_duplicate_file_reason, hid, hc]⟩
  · intro hid
    simp [not_duplicate_file_reason, hid]
  · intro hid hc
    simp [not_duplicate_file_reason, hid, hc]
  · intro hid hc
    simp [not_duplicate_file_reason, hid, hc]

/-- Two distinct files with equal content: the judge reaches the
safe-to-remove verdict. -/
theorem claim_C7_witness :
    not_duplicate_file_reason
      (Node.dir 0 [("a", Node.file 1 true [9]), ("b", Node.file 2 true [9])])
      "a" "b" = .ok none := by
  refine (claim_C7 (Node.dir 0 [("a", Node.file 1 true [9]),
    ("b", Node.file 2 true [9])]) "a" "b" 1 2 [9] [9] rfl rfl).2.2.2 rfl ?_
  exact rfl

/-! ### C3: shorter ignored paths in the skip tree -/

/-- Walk a whole segment chain in a skip tree. -/
def lookupPath (t : SkipTree) : List String → Option SkipTree
  | [] => some t
  | s :: rest =>
    match lookupChild t s with
    | some c => lookupPath c rest
    | none => none

/-- Claim C3, counterexample: the claim asserts that whenever the ignore
list contains a path `p` and a longer extension of it, in either order,
the built tree has a leaf at `p` and everything under `p` is skipped.  For
the list `["a", "a/b"]` the insertion of `"a/b"` recreates a child under
the previously cleared node `"a"`, so `"a"` is not a leaf, and a file
`"a/c"` under the supposedly ignored directory `"a"` is still
enumerated. -/
theorem claim_C3_counterexample :
    lookupChild (_make_skip_path_tree ["a", "a/b"]) "a"
        = some (.node [("b", .node [])])
      ∧ _files_in [("a", Node.dir 1 [("c", Node.file 2 true [])])]
          (_make_skip_path_tree ["a", "a/b"]) = ["a/c"] := by
  constructor
  · rfl
  · simp [_files_in, _make_skip_path_tree, insertSegs, updateChild, splitPath,
      splitSegsAux, isSkipLeaf, lookupChild, SkipTree.children, skipChild,
      pjoin]

/-- Claim C3, amended: the shorter ignored path `p` wins only against
longer paths inserted before it: for every insertion sequence in which `p`
comes last, the built tree has a leaf at `p` (its final segment chain maps
to a childless node), and a leaf entry is skipped entirely during
enumeration.  If a longer extension of `p` is inserted after `p`, the node
at `p` regains a child and is no longer a leaf (as the counterexample
shows), so entries under `p` other than the longer path are enumerated
again. -/
theorem claim_C3 :
    (∀ (ps : List String) (p : String),
      lookupPath (_make_skip_path_tree (ps ++ [p])) (splitPath p)
        = some (.node []))
    ∧ (∀ (sk : SkipTree) (name : String) (n : Node)
        (rest : List (String × Node)), isSkipLeaf sk name = true →
        _files_in ((name, n) :: rest) sk = _files_in rest sk) := by
  have hupd : ∀ (cs : List (String × SkipTree)) (s : String) (v : SkipTree),
      lookupChild (.node (updateChild cs s v)) s = some v := by
    intro cs
    induction cs with
    | nil => intro s v; simp [updateChild, lookupChild, SkipTree.children,
        List.find?]
    | cons e rest ih =>
      intro s v
      by_cases h : e.1 = s
      · simp [updateChild, h, lookupChild, SkipTree.children, List.find?]
      · simpa [updateChild, h, lookupChild, SkipTree.children, List.find?]
          using ih s v
  have hins : ∀ (segs : List String) (t : SkipTree),
      lookupPath (insertSegs t segs) segs = some (.node []) := by
    intro segs
    induction segs with
    | nil => intro t; rfl
    | cons s rest ih =>
      intro t
      simp only [insertSegs, lookupPath, hupd]
      exact ih _
  constructor
  · intro ps p
    have : _make_skip_path_tree (ps ++ [p])
        = insertSegs (_make_skip_path_tree ps) (splitPath p) := by
      simp [_make_skip_path_tree]
    rw [this]
    exact hins (splitPath p) (_make_skip_path_tree ps)
  · intro sk name n rest h
    cases n with
    | file st r c => simp [_files_in, h]
    | dir st sub => simp [_files_in, h]

theorem claim_C3_witness :
    lookupPath (_make_skip_path_tree (["a/b"] ++ ["a"])) (splitPath "a")
        = some (.node [])
      ∧ _files_in [("x", Node.file 1 true [])] (.node [("x", .node [])])
          = _files_in [] (.node [("x", .node [])]) :=
  ⟨claim_C3.1 ["a/b"] "a",
   claim_C3.2 (.node [("x", .node [])]) "x" (Node.file 1 true []) [] rfl⟩

/-! ### C6: no mutation on a NotDuplicate verdict -/

/-- Claim C6: whenever `process_duplicate` surfaces a `NotDuplicate`
reason, the removal action was not invoked and the filesystem is returned
exactly as it was, for every removal action.  (The judges
`not_duplicate_file_reason` and `not_duplicate_dir_reason` are pure
functions of the filesystem value in this model, mirroring that the
source judges only read the filesystem.) -/
theorem claim_C6 (root : Node) (orig dup : String) (ign : List String)
    (process : String → Node → Node) (r : String) (fs2 : Node)
    (h : process_duplicate root orig dup ign process = .ok (some r, fs2)) :
    fs2 = root := by
  by_cases he : file_exists root dup
  · rw [process_duplicate, if_pos he] at h
    cases hj : (if is_dir root dup then
        not_duplicate_dir_reason root orig dup ign
      else
        not_duplicate_file_reason root orig dup) with
    | error e => rw [hj] at h; cases h
    | ok v =>
      rw [hj] at h
      cases v with
      | none => simp at h
      | some s =>
        simp only [Except.ok.injEq, Prod.mk.injEq] at h
        exact h.2.symm
  · rw [process_duplicate, if_neg he] at h
    simp only [Except.ok.injEq, Prod.mk.injEq] at h
    exact h.2.symm

/-- The judge refuses two files with different content, and the
filesystem comes back unchanged. -/
theorem claim_C6_witness :
    Node.dir 0 [("1", Node.file 1 true [97]), ("2", Node.file 2 true [98])]
      = Node.dir 0 [("1", Node.file 1 true [97]), ("2", Node.file 2 true [98])] :=
  claim_C6
    (Node.dir 0 [("1", Node.file 1 true [97]), ("2", Node.file 2 true [98])])
    "1" "2" [] remove_file_or_dir (files_differ_msg "1" "2")
    (Node.dir 0 [("1", Node.file 1 true [97]), ("2", Node.file 2 true [98])])
    rfl

/-! ### C1: removal of a non-existent candidate -/

def C1root : Node := Node.dir 0 [("orig", Node.file 1 true [])]

/-- Claim C1, counterexample: the claim asserts that removing a
non-existent candidate is a no-op returning success, never an error.  The
source instead raises `NotDuplicate(orig, duplicate, '"..." does not
exist')` (its own test `test_duplicate_does_not_exist_raises_error`
asserts the raise), so the call reports an error rather than success. -/
theorem claim_C1_counterexample :
    process_duplicate C1root "orig" "cand" [] remove_file_or_dir
        = .ok (some (does_not_exist_msg "cand"), C1root)
      ∧ process_duplicate C1root "orig" "cand" [] remove_file_or_dir
        ≠ .ok (none, C1root) :=
  ⟨rfl, by simp [process_duplicate, file_exists, resolvePath, splitPath,
    splitSegsAux, resolveIn, lookupEntry, C1root]⟩

/-- Claim C1, amended: for every invocation where the candidate path does
not exist, `process_duplicate` performs no action and no mutation but
raises `NotDuplicate` ("does not exist") instead of returning success;
consequently a second invocation after a successful removal with the
default removal action performs no action and reports this same error. -/
theorem claim_C1 :
    (∀ (root : Node) (orig dup : String) (ign : List String)
      (process : String → Node → Node), file_exists root dup = false →
        process_duplicate root orig dup ign process
          = .ok (some (does_not_exist_msg dup), root))
    ∧ (∀ (root : Node) (orig dup : String) (ign : List String) (fs2 : Node),
        process_duplicate root orig dup ign remove_file_or_dir
          = .ok (none, fs2) →
        process_duplicate fs2 orig dup ign remove_file_or_dir
          = .ok (some (does_not_exist_msg dup), fs2)) := by
  constructor
  · intro root orig dup ign process he
    rw [process_duplicate, if_neg (by simp [he])]
  · intro root orig dup ign fs2 h
    have hfs : fs2 = remove_file_or_dir dup root := by
      by_cases he : file_exists root dup
      · rw [process_duplicate, if_pos he] at h
        cases hj : (if is_dir root dup then
            not_duplicate_dir_reason root orig dup ign
          else
            not_duplicate_file_reason root orig dup) with
        | error e => rw [hj] at h; cases h
        | ok v =>
          rw [hj] at h
          cases v with
          | none =>
            simp only [Except.ok.injEq, Prod.mk.injEq] at h
            exact h.2.symm
          | some s => simp at h
      · rw [process_duplicate, if_neg he] at h
        simp at h
    have hexist : ¬ (file_exists fs2 dup = true) := by
      rw [hfs]
      simp only [file_exists, remove_file_or_dir, resolvePath]
      rw [resolveIn_deleteIn (splitPath dup) root (splitPath_ne_nil dup)]
      simp
    rw [process_duplicate, if_neg hexist]

def C1Wroot : Node :=
  Node.dir 0 [("orig", Node.file 1 true []), ("cand", Node.file 2 true [])]

def C1Wafter : Node := Node.dir 0 [("orig", Node.file 1 true [])]

theorem claim_C1_witness :
    process_duplicate (Node.dir 0 []) "o" "c" [] remove_file_or_dir
        = .ok (some (does_not_exist_msg "c"), Node.dir 0 [])
      ∧ process_duplicate C1Wafter "orig" "cand" [] remove_file_or_dir
        = .ok (some (does_not_exist_msg "cand"), C1Wafter) :=
  ⟨claim_C1.1 (Node.dir 0 []) "o" "c" [] remove_file_or_dir rfl,
   claim_C1.2 C1Wroot "orig" "cand" [] C1Wafter rfl⟩

/-! ### C9: empty candidate directories -/

def C9root : Node := Node.dir 0 [("d", Node.dir 1 [])]

/-- Claim C9, counterexample: the claim quantifies over every existing
original directory, including the candidate itself; but when the
candidate directory is the very same entity as the original, the judge
answers the same-directory reason, not safe-to-remove — even though the
candidate is an existing empty directory. -/
theorem claim_C9_counterexample :
    not_duplicate_dir_reason C9root "d" "d" []
      = .ok (some (same_directory_msg "d" "d")) := rfl

/-- Claim C9, amended: for every existing empty candidate directory and
every existing original directory that is a distinct entity from it,
`not_duplicate_dir_reason` yields safe-to-remove (`none`) with any ignore
list; in particular two distinct empty directories are judged safe. -/
theorem claim_C9 (root : Node) (d c : String) (ign : List String)
    (stc std : Nat) (esO : List (String × Node))
    (hc : resolvePath root c = some (.dir stc []))
    (hd : resolvePath root d = some (.dir std esO))
    (hne : same_file_or_dir root d c = false) :
    not_duplicate_dir_reason root d c ign = .ok none := by
  have hfc : files_in root c ign = .ok [] := by
    simp [files_in, hc, _files_in]
  have hfd : files_in root d [] = .ok (_files_in esO (_make_skip_path_tree [])) := by
    simp [files_in, hd]
  simp [not_duplicate_dir_reason, hne, hfc, hfd, pySet, pySet.go, contentLoop]

def C9Wroot : Node := Node.dir 0 [("d1", Node.dir 1 []), ("d2", Node.dir 2 [])]

/-- Two distinct empty directories are judged safe (with a non-empty
ignore list, exercising the "any ignore list" part). -/
theorem claim_C9_witness :
    not_duplicate_dir_reason C9Wroot "d1" "d2" ["x"] = .ok none :=
  claim_C9 C9Wroot "d1" "d2" ["x"] 2 1 [] rfl rfl rfl

/-! ### C5: phase order of the directory judgment -/

/-- Claim C5: for every invocation of `not_duplicate_dir_reason` on two
distinct directory entities, with `candL` the candidate listing (filtered
by the ignore list) and `origL` the full original listing:
first, if the set of extra candidate files (candidate minus original,
over relative paths) is non-empty, that is the verdict — reported before
any size or content comparison, whatever the state of the file contents;
second, if there are no extra files, the size sweep runs over all common
pairs and the first mismatching pair (in iteration order) is the verdict;
third, contents are compared only if all sizes match: the judgment then
equals the content sweep. -/
theorem claim_C5 (root : Node) (d c : String) (ign : List String)
    (candL origL : List String)
    (hne : same_file_or_dir root d c = false)
    (hc : files_in root c ign = .ok candL)
    (ho : files_in root d [] = .ok origL) :
    ((pySet candL).filter (fun f => !(origL.contains f)) ≠ [] →
      not_duplicate_dir_reason root d c ign
        = .ok (some (extra_files_msg (sortStr
            ((pySet candL).filter (fun f => !(origL.contains f)))))))
    ∧ (∀ f, (pySet candL).filter (fun f => !(origL.contains f)) = [] →
        (pySet candL).find? (fun g =>
          !(same_size root (pjoin d g) (pjoin c g))) = some f →
        not_duplicate_dir_reason root d c ign
          = .ok (some (sizes_differ_msg (pjoin d f) (pjoin c f))))
    ∧ ((pySet candL).filter (fun f => !(origL.contains f)) = [] →
        (∀ f ∈ pySet candL, same_size root (pjoin d f) (pjoin c f) = true) →
        not_duplicate_dir_reason root d c ign
          = contentLoop root d c (pySet candL)) := by
  refine ⟨?_, ?_, ?_⟩
  · intro hE
    simp only [not_duplicate_dir_reason, hne, hc, ho]
    rw [if_neg (by simp [hne]), if_neg (by simpa [List.isEmpty_iff] using hE)]
  · intro f hE hfind
    simp only [not_duplicate_dir_reason, hne, hc, ho]
    rw [if_neg (by simp [hne]), if_pos (by simp only [List.isEmpty_iff]; exact hE), hfind]
  · intro hE hall
    have hfind : (pySet candL).find? (fun g =>
        !(same_size root (pjoin d g) (pjoin c g))) = none := by
      rw [List.find?_eq_none]
      intro x hx
      simp [hall x hx]
    simp only [not_duplicate_dir_reason, hne, hc, ho]
    rw [if_neg (by simp [hne]), if_pos (by simp only [List.isEmpty_iff]; exact hE), hfind]

def C5Wroot : Node :=
  Node.dir 0
    [("d1", Node.dir 1 []),
     ("d2", Node.dir 2 [("extra_file", Node.file 3 true [])])]

/-- The extra-file phase fires on a concrete pair of distinct directories
where the candidate holds one file absent from the original. -/
theorem claim_C5_witness :
    not_duplicate_dir_reason C5Wroot "d1" "d2" []
      = .ok (some (extra_files_msg ["extra_file"])) := by
  have h := (claim_C5 C5Wroot "d1" "d2" [] ["extra_file"] [] rfl
    (by simp [C5Wroot, files_in, resolvePath, splitPath, splitSegsAux,
      resolveIn, lookupEntry, _files_in, _make_skip_path_tree, isSkipLeaf,
      lookupChild, SkipTree.children])
    (by simp [C5Wroot, files_in, resolvePath, splitPath, splitSegsAux,
      resolveIn, lookupEntry, _files_in, _make_skip_path_tree])).1
    (by simp [pySet, pySet.go])
  simpa [pySet, pySet.go, sortStr, insertSorted] using h

end Rmdup
